import Mathlib

/-!
Verification development for the tableau-report-gen repository.

The embedding models `src/app.py` (the Streamlit front end): the caption
merge, the section-rendering pipeline with its error handling, the table
display toggle, the dependency-DAG preconditions at the two call sites, and
the graphviz node/edge attribute assignment.  Components of the repository
that live outside `src/` (the workbook parser, the DAG builder) are modelled
from the specification where a claim needs them; each such definition says so
in its doc comment.

Dataframes are modelled row-orientedly: a row is an association list from
column name to cell value, and a table is a list of rows.  A pandas missing
value (NaN) is the explicit `Value.nan`.
-/

/-- A cell value of a dataframe: a string, or pandas' missing value `NaN`. -/
inductive Value where
  | str (s : String)
  | nan
deriving DecidableEq, Repr

/-- A dataframe row: an association list from column name to cell value. -/
abbrev Row : Type := List (String × Value)

/-- Look up a cell of a row by column name (first matching column wins). -/
def getCell (r : Row) (c : String) : Option Value :=
  (List.find? (fun p => p.1 = c) r).map (fun p => p.2)

/-- A table has a column when every row carries a cell for it (the row-wise
rendering of pandas' `col in df.columns` for the uniform tables the app
builds). -/
def hasCol (rows : List Row) (c : String) : Bool :=
  rows.all (fun r => List.any r (fun p => p.1 = c))

/-- Key equality as pandas `merge` sees it: two key cells match when both are
present non-NaN strings and equal; a NaN key matches nothing. -/
def keyMatch (a b : Option Value) : Bool :=
  match a, b with
  | some (Value.str x), some (Value.str y) => x = y
  | _, _ => false

/-- The caption merge of `app.py` lines 174-190: a pandas left merge of a
field table with `df_data_sources[['Data Source ID', 'Caption']]` on
`'Data Source ID'`, with the incoming `Caption` column renamed to
`'Data Source Caption'`.  A left row with no matching data source keeps its
cells and gets a NaN caption; a left row with k matches yields k output
rows. -/
def mergeCaption (leftRows dsRows : List Row) : List Row :=
  leftRows.flatMap (fun lr =>
    let ms := dsRows.filter (fun dr =>
      keyMatch (getCell lr "Data Source ID") (getCell dr "Data Source ID"))
    if ms.isEmpty then
      [lr ++ [("Data Source Caption", Value.nan)]]
    else
      ms.map (fun dr =>
        lr ++ [("Data Source Caption", (getCell dr "Caption").getD Value.nan)]))

/-- The `metadata` namespace of the report aggregate as `app.py` reads it:
version attributes (absent keys modelled as `none`, matching `dict.get` with
a default) and the three metadata tables. -/
structure ReportMeta where
  version : Option String
  source_platform : Option String
  source_build : Option String
  calculated_fields : List Row
  original_fields : List Row
  worksheets : List Row
deriving DecidableEq

/-- The `data` namespace of the report aggregate: the data-sources table. -/
structure ReportData where
  data_sources : List Row
deriving DecidableEq

/-- The report aggregate handed from the parser to the presentation layer:
exactly the two namespaces `metadata` and `data`. -/
structure Report where
  metadata : ReportMeta
  data : ReportData
deriving DecidableEq

/-- The merge stage of `app.py` lines 170-190: when the data-sources table is
non-empty, each non-empty field table having a `'Data Source ID'` column is
replaced in the report aggregate by its caption-merged version; everything
else is left as is. -/
def mergeStep (r : Report) : Report :=
  if r.data.data_sources.isEmpty then r
  else
    let cf :=
      if !r.metadata.calculated_fields.isEmpty &&
          hasCol r.metadata.calculated_fields "Data Source ID" then
        mergeCaption r.metadata.calculated_fields r.data.data_sources
      else r.metadata.calculated_fields
    let ofd :=
      if !r.metadata.original_fields.isEmpty &&
          hasCol r.metadata.original_fields "Data Source ID" then
        mergeCaption r.metadata.original_fields r.data.data_sources
      else r.metadata.original_fields
    { r with metadata := { r.metadata with calculated_fields := cf, original_fields := ofd } }

/-- A cell value is non-empty when it is a non-empty string; NaN counts as
empty/missing. -/
def nonEmptyVal : Value → Bool
  | Value.str s => !(s.isEmpty)
  | Value.nan => false

/-- Observable UI events emitted by `main` in `app.py`: informational writes,
error messages, section headers, rendered tables, the version-info JSON, a
rendered dependency graph, and explicit empty-state messages. -/
inductive Ev where
  | info (s : String)
  | errorMsg (s : String)
  | header (s : String)
  | table (rows : Nat)
  | jsonOut
  | graph
  | emptyMsg (s : String)
deriving DecidableEq, Repr

/-- The fixed section list of `app.py` line 158. -/
def reportSections : List String :=
  ["Version Information", "Calculated Fields", "Original Fields",
   "Worksheets", "Data Sources", "Dependency DAG"]

/-- Rendering of one report section (`app.py` lines 196-274): the version
JSON, or the section's table when non-empty, or its explicit empty-state
message; the Dependency DAG needs both field tables non-empty. -/
def renderSection (report : Report) (s : String) : List Ev :=
  if s = "Version Information" then [Ev.jsonOut]
  else if s = "Calculated Fields" then
    if !report.metadata.calculated_fields.isEmpty then
      [Ev.table report.metadata.calculated_fields.length]
    else [Ev.emptyMsg "No calculated fields found."]
  else if s = "Original Fields" then
    if !report.metadata.original_fields.isEmpty then
      [Ev.table report.metadata.original_fields.length]
    else [Ev.emptyMsg "No original fields found."]
  else if s = "Worksheets" then
    if !report.metadata.worksheets.isEmpty then
      [Ev.table report.metadata.worksheets.length]
    else [Ev.emptyMsg "No worksheets found."]
  else if s = "Data Sources" then
    if !report.data.data_sources.isEmpty then
      [Ev.table report.data.data_sources.length]
    else [Ev.emptyMsg "No data sources found."]
  else if s = "Dependency DAG" then
    if !report.metadata.calculated_fields.isEmpty &&
        !report.metadata.original_fields.isEmpty then
      [Ev.graph]
    else [Ev.emptyMsg "Insufficient data to generate Dependency DAG."]
  else []

/-- The section loop of `app.py` lines 193-278: walk the fixed section list
and, for each selected section, emit its header and its content. -/
def renderSections (selected : List String) (report : Report) : List Ev :=
  reportSections.flatMap (fun s =>
    if s ∈ selected then Ev.header s :: renderSection report s else [])

/-- The outcomes of the fallible stages of `main` (`app.py` lines 116-154)
for one uploaded workbook, together with the report the parser would yield
when everything succeeds. -/
structure PipeIn where
  saveOk : Bool
  decompressOk : Bool
  twbContentNonEmpty : Bool
  parseOk : Bool
  report : Report
deriving DecidableEq

/-- The pipeline of `main` (`app.py` lines 116-278): each failing stage shows
an error and returns without rendering any section; on full success the
caption merge runs and the selected sections are rendered. -/
def runPipeline (p : PipeIn) (selected : List String) : List Ev :=
  if !p.saveOk then [Ev.errorMsg "Failed to save the uploaded file."]
  else
    Ev.info "File uploaded and saved successfully." ::
    (if !p.decompressOk then [Ev.errorMsg "Failed to decompress the .twbx file."]
     else
       Ev.info "Decompressed the .twbx file successfully." ::
       (if p.twbContentNonEmpty then
          if p.parseOk then
            Ev.info "Parsed the .twb content successfully." ::
            renderSections selected (mergeStep p.report)
          else [Ev.errorMsg "Failed to parse the .twb content."]
        else [Ev.errorMsg "Failed to extract .twb content from the uploaded .twbx file."]))

/-- The table display toggle's observable output: the rows shown and whether
a Show More / Show Less button is offered. -/
structure ToggleOut where
  displayed : List Row
  showMore : Bool
  showLess : Bool
deriving DecidableEq

/-- `toggle_table_display` of `app.py` lines 44-73: when the section is
expanded show the full dataframe with a Show Less button; otherwise show the
first `display_limit` rows with a Show More button when the dataframe is
longer than the limit, and the full dataframe with no button when not. -/
def toggle_table_display (expanded : Bool) (dataframe : List Row)
    (display_limit : Nat) : ToggleOut :=
  if expanded then
    ⟨dataframe, false, true⟩
  else if dataframe.length > display_limit then
    ⟨dataframe.take display_limit, true, false⟩
  else
    ⟨dataframe, false, false⟩

/-- The version-info dictionary built in `app.py` lines 197-203: each entry
is the metadata value, or the sentinel `"Unknown"` when the key is absent. -/
def versionInfo (m : ReportMeta) : String × String × String :=
  (m.version.getD "Unknown", m.source_platform.getD "Unknown",
   m.source_build.getD "Unknown")

/-- The export path of `app.py` lines 287-301: the HTML report is generated,
and the dependency graph is embedded whenever the Dependency DAG section is
selected and the calculated-fields table is non-empty (the original-fields
table is not consulted). -/
def exportReportEvents (selected : List String) (report : Report) : List Ev :=
  Ev.info "HTML report generated." ::
  (if "Dependency DAG" ∈ selected && !report.metadata.calculated_fields.isEmpty then
     [Ev.graph]
   else [])

/-- A graphviz node style: shape, fill style and color. -/
structure NodeStyle where
  shape : String
  style : String
  color : String
deriving DecidableEq, Repr

/-- Node styling of `plot_dag_graphviz` (`app.py` lines 22-31): the node's
`type` attribute defaults to `'Original Field'` when absent; the three known
tags get their styles and anything else falls to the grey default. -/
def nodeStyleFor (tag : Option String) : NodeStyle :=
  let node_type := tag.getD "Original Field"
  if node_type = "Calculated Field" then ⟨"box", "filled", "lightblue"⟩
  else if node_type = "Original Field" then ⟨"ellipse", "filled", "#89CFF0"⟩
  else if node_type = "Data Source" then ⟨"rectangle", "filled", "orange"⟩
  else ⟨"ellipse", "filled", "grey"⟩

/-- Edge labelling of `plot_dag_graphviz` (`app.py` lines 34-40): the edge's
`label` attribute defaults to the empty string when absent, and label
attributes (label, fontsize, fontcolor) are attached only when the label is
non-empty (Python string truthiness). -/
def edgeAttrs (label : Option String) : Option (String × String × String) :=
  let l := label.getD ""
  if !l.isEmpty then some (l, "8", "gray") else none

/-- Whether a field is derived or original. -/
inductive FieldKind where
  | calculated
  | original
deriving DecidableEq, Repr

/-- A string is blank when it is empty or consists of whitespace only. -/
def isBlankStr (s : String) : Bool :=
  s.toList.all Char.isWhitespace

/-- Modelled from the spec: the Document Parser is not under `src/`.  Per
section 4.2, calculated fields are distinguished from original fields by the
presence of a formula attribute/child, with the edge-case policy that a field
whose formula is empty or whitespace-only is treated as an OriginalField. -/
def classifyField (formula : Option String) : FieldKind :=
  match formula with
  | none => FieldKind.original
  | some f => if isBlankStr f then FieldKind.original else FieldKind.calculated

/-- Whether a formula slot holds actual (non-whitespace) formula content. -/
def hasRealFormula : Option String → Bool
  | none => false
  | some f => !(isBlankStr f)

/-- Modelled from the spec: one parsed data source (section 3), with its
stable ID and display caption. -/
structure ParsedDataSource where
  dsId : String
  caption : String
deriving DecidableEq

/-- Modelled from the spec: one parsed field (section 3), scoped to its
owning data source. -/
structure ParsedField where
  name : String
  dsId : String
deriving DecidableEq

/-- Modelled from the spec: one parsed worksheet (section 3). -/
structure ParsedWorksheet where
  wsName : String
deriving DecidableEq

/-- Modelled from the spec: the parser's normalized output of its single
parse pass (section 4.2), from which `get_report` builds the aggregate. -/
structure ParsedDoc where
  version : Option String
  source_platform : Option String
  source_build : Option String
  dataSources : List ParsedDataSource
  originalFields : List ParsedField
  calcFields : List ParsedField
  worksheets : List ParsedWorksheet
deriving DecidableEq

/-- Modelled from the spec: the row the parser emits for a field, carrying
the stable `'Data Source ID'` column (section 6). -/
def fieldRow (f : ParsedField) : Row :=
  [("Name", Value.str f.name), ("Data Source ID", Value.str f.dsId)]

/-- Modelled from the spec: the row the parser emits for a data source,
carrying the stable `'Data Source ID'` and `'Caption'` columns (section 6). -/
def dsRow (d : ParsedDataSource) : Row :=
  [("Data Source ID", Value.str d.dsId), ("Caption", Value.str d.caption)]

/-- Modelled from the spec: the row the parser emits for a worksheet,
carrying the stable `'Worksheet Name'` column (section 6). -/
def wsRow (w : ParsedWorksheet) : Row :=
  [("Worksheet Name", Value.str w.wsName)]

/-- Modelled from the spec: `get_report` of the parser (not under `src/`),
packaging the parse result as the two-namespace aggregate of section 6 —
`metadata` holding version info and the calculated-fields, original-fields
and worksheets tables, `data` holding the data-sources table. -/
def get_report (doc : ParsedDoc) : Report :=
  { metadata :=
      { version := doc.version
        source_platform := doc.source_platform
        source_build := doc.source_build
        calculated_fields := doc.calcFields.map fieldRow
        original_fields := doc.originalFields.map fieldRow
        worksheets := doc.worksheets.map wsRow }
    data := { data_sources := doc.dataSources.map dsRow } }

/-- A filesystem operation performed by `main`. -/
inductive FsOp where
  | write (path : String)
  | delete (path : String)
deriving DecidableEq, Repr

/-- The filesystem trace of one invocation of `main` (`app.py` lines 89-94
and 117-127): the log file is always written, the uploaded workbook is saved
to `temp_uploaded.twbx` when the save succeeds, and no path is ever
deleted on any exit path. -/
def mainFsTrace (p : PipeIn) : List FsOp :=
  FsOp.write "logs/app.log" ::
  (if p.saveOk then [FsOp.write "temp_uploaded.twbx"] else [])

/-- The files still on disk after a trace: every written path not deleted
later in the trace. -/
def remainingFiles : List FsOp → List String
  | [] => []
  | FsOp.write p :: rest =>
      if FsOp.delete p ∈ rest then remainingFiles rest else p :: remainingFiles rest
  | FsOp.delete _ :: rest => remainingFiles rest

/-- A field-table row whose `Data Source ID` has no match in the
data-sources table below. -/
def exFieldRow : Row :=
  [("Name", Value.str "Profit Ratio"),
   ("Data Source ID", Value.str "federated.unmatched")]

/-- A field-table row whose `Data Source ID` matches the data-sources table
below. -/
def exMatchedFieldRow : Row :=
  [("Name", Value.str "Sales"),
   ("Data Source ID", Value.str "federated.0abc")]

/-- A one-row data-sources table. -/
def exDsTable : List Row :=
  [[("Data Source ID", Value.str "federated.0abc"),
    ("Caption", Value.str "Sample Superstore")]]

/-- A report with all version attributes absent and all tables empty. -/
def exEmptyReport : Report :=
  ⟨⟨none, none, none, [], [], []⟩, ⟨[]⟩⟩

/-- A report holding one calculated field and one data source, as produced
by a successful parse just before the caption merge. -/
def exMergeReport : Report :=
  ⟨⟨some "18.1", some "mac", some "20221.22.1234", [exFieldRow], [], []⟩,
   ⟨exDsTable⟩⟩

/-- A pipeline run whose decompression stage fails. -/
def exPipeFail : PipeIn :=
  ⟨true, false, true, true, exEmptyReport⟩

/-- A fully successful pipeline run over the empty report. -/
def exPipeOk : PipeIn :=
  ⟨true, true, true, true, exEmptyReport⟩

/-- C8: the table-display toggle shows the full dataframe whenever its
length is at most the display limit or the section is expanded, and exactly
the first `display_limit` rows otherwise; a Show More control is offered iff
the dataframe is longer than the limit and the section is collapsed, and a
Show Less control iff the section is expanded. -/
theorem toggle_display_spec (expanded : Bool) (dataframe : List Row)
    (display_limit : Nat) :
    ((toggle_table_display expanded dataframe display_limit).displayed =
       if dataframe.length ≤ display_limit ∨ expanded = true then dataframe
       else dataframe.take display_limit)
    ∧ ((toggle_table_display expanded dataframe display_limit).showMore = true ↔
       (dataframe.length > display_limit ∧ expanded = false))
    ∧ ((toggle_table_display expanded dataframe display_limit).showLess = true ↔
       expanded = true)
    ∧ (dataframe.length > display_limit → expanded = false →
       (toggle_table_display expanded dataframe display_limit).displayed.length =
         display_limit) := by
  cases expanded with
  | true => simp [toggle_table_display]
  | false =>
    by_cases h : display_limit < dataframe.length
    · have h2 : ¬ dataframe.length ≤ display_limit := by omega
      simp [toggle_table_display, h, h2, List.length_take]
      omega
    · have h2 : dataframe.length ≤ display_limit := by omega
      simp [toggle_table_display, h, h2]

/-- C8 witness: a collapsed section over a two-row dataframe with display
limit one shows exactly the first row and offers Show More. -/
theorem toggle_display_spec_witness :
    (toggle_table_display false [exFieldRow, exMatchedFieldRow] 1).showMore = true
    ∧ (toggle_table_display false [exFieldRow, exMatchedFieldRow] 1).displayed.length = 1 :=
  ⟨(toggle_display_spec false [exFieldRow, exMatchedFieldRow] 1).2.1.mpr
     ⟨by decide, rfl⟩,
   (toggle_display_spec false [exFieldRow, exMatchedFieldRow] 1).2.2.2
     (by decide) rfl⟩

/-- C10: graphviz attribute assignment is total — a node without a `type`
attribute is styled as an Original Field, a node with an unknown tag gets the
grey default style distinct from the three known styles, and an edge carries
label attributes iff its label is present and non-empty. -/
theorem plot_dag_attr_total (t : String) (lab : Option String) :
    (nodeStyleFor none = nodeStyleFor (some "Original Field"))
    ∧ (t ≠ "Calculated Field" → t ≠ "Original Field" → t ≠ "Data Source" →
        nodeStyleFor (some t) = ⟨"ellipse", "filled", "grey"⟩)
    ∧ ((⟨"ellipse", "filled", "grey"⟩ : NodeStyle) ≠ nodeStyleFor (some "Calculated Field")
       ∧ (⟨"ellipse", "filled", "grey"⟩ : NodeStyle) ≠ nodeStyleFor (some "Original Field")
       ∧ (⟨"ellipse", "filled", "grey"⟩ : NodeStyle) ≠ nodeStyleFor (some "Data Source"))
    ∧ ((edgeAttrs lab).isSome = true ↔ ∃ s, lab = some s ∧ s.isEmpty = false) := by
  refine ⟨by decide, fun h1 h2 h3 => ?_, by decide, ?_⟩
  · simp only [nodeStyleFor, Option.getD_some]
    rw [if_neg h1, if_neg h2, if_neg h3]
  · cases lab with
    | none =>
      constructor
      · intro hcon
        simp [edgeAttrs] at hcon
        exact absurd hcon (by decide)
      · rintro ⟨s, hs, -⟩
        cases hs
    | some s =>
      cases hs : s.isEmpty <;> simp [edgeAttrs, hs]

/-- C10 witness: an unknown tag falls to the grey default style, and an
edge with a non-empty label carries label attributes. -/
theorem plot_dag_attr_total_witness :
    nodeStyleFor (some "Unresolved") = ⟨"ellipse", "filled", "grey"⟩
    ∧ (edgeAttrs (some "uses")).isSome = true :=
  ⟨(plot_dag_attr_total "Unresolved" (some "uses")).2.1
     (by decide) (by decide) (by decide),
   ((plot_dag_attr_total "Unresolved" (some "uses")).2.2.2).mpr
     ⟨"uses", rfl, rfl⟩⟩

/-- C7: when the version, source-platform or source-build attribute is
absent from the parsed metadata, the corresponding entry of the displayed
version info is the sentinel string "Unknown". -/
theorem versionInfo_defaults (m : ReportMeta) :
    (m.version = none → (versionInfo m).1 = "Unknown")
    ∧ (m.source_platform = none → (versionInfo m).2.1 = "Unknown")
    ∧ (m.source_build = none → (versionInfo m).2.2 = "Unknown") := by
  refine ⟨fun h => ?_, fun h => ?_, fun h => ?_⟩ <;> simp [versionInfo, h]

/-- C7 witness: all three entries default to "Unknown" for the report with
no version attributes. -/
theorem versionInfo_defaults_witness :
    (versionInfo exEmptyReport.metadata).1 = "Unknown"
    ∧ (versionInfo exEmptyReport.metadata).2.1 = "Unknown"
    ∧ (versionInfo exEmptyReport.metadata).2.2 = "Unknown" :=
  ⟨(versionInfo_defaults exEmptyReport.metadata).1 rfl,
   (versionInfo_defaults exEmptyReport.metadata).2.1 rfl,
   (versionInfo_defaults exEmptyReport.metadata).2.2 rfl⟩

/-- Shape of a caption-merge output row: it is an input row extended with a
`'Data Source Caption'` cell, which is NaN exactly when the row's
`'Data Source ID'` matched no data source. -/
theorem mergeCaption_mem (leftRows dsRows : List Row) (r : Row)
    (hr : r ∈ mergeCaption leftRows dsRows) :
    ∃ lr, lr ∈ leftRows ∧ ∃ v : Value,
      r = lr ++ [("Data Source Caption", v)] ∧
      ((∀ dr ∈ dsRows,
          keyMatch (getCell lr "Data Source ID") (getCell dr "Data Source ID") = false) →
        v = Value.nan) ∧
      (v ≠ Value.nan →
        ∃ dr, dr ∈ dsRows ∧
          keyMatch (getCell lr "Data Source ID") (getCell dr "Data Source ID") = true ∧
          (getCell dr "Caption").getD Value.nan = v) := by
  simp only [mergeCaption, List.mem_flatMap] at hr
  obtain ⟨lr, hlr, hmem⟩ := hr
  refine ⟨lr, hlr, ?_⟩
  by_cases hf : (dsRows.filter (fun dr =>
      keyMatch (getCell lr "Data Source ID") (getCell dr "Data Source ID"))).isEmpty
  · rw [if_pos hf, List.mem_singleton] at hmem
    refine ⟨Value.nan, hmem, fun _ => rfl, fun hne => absurd rfl hne⟩
  · rw [if_neg hf, List.mem_map] at hmem
    obtain ⟨dr, hdr, hrow⟩ := hmem
    have hdr2 := List.mem_filter.mp hdr
    refine ⟨(getCell dr "Caption").getD Value.nan, hrow.symm, fun hall => ?_, fun _ => ?_⟩
    · exact absurd hdr2.2 (by simp [hall dr hdr2.1])
    · exact ⟨dr, hdr2.1, hdr2.2, rfl⟩

/-- C3 counterexample: merging the report whose only calculated field names
a data source absent from the data-sources table leaves that row with a NaN
(missing, hence empty) `'Data Source Caption'`. -/
theorem merged_caption_cex :
    (mergeStep exMergeReport).metadata.calculated_fields =
      [exFieldRow ++ [("Data Source Caption", Value.nan)]]
    ∧ nonEmptyVal Value.nan = false := by
  constructor <;> decide

/-- C3 (amended): every caption-merged row is an input row extended with a
`'Data Source Caption'` cell; the cell holds a matching data source's caption
when the row's `'Data Source ID'` matches one, and the missing value NaN when
it matches none — unmatched rows do not get a non-empty caption. -/
theorem merged_caption_amended (leftRows dsRows : List Row) (r : Row)
    (hr : r ∈ mergeCaption leftRows dsRows) :
    ∃ lr, lr ∈ leftRows ∧ ∃ v : Value,
      r = lr ++ [("Data Source Caption", v)] ∧
      ((∀ dr ∈ dsRows,
          keyMatch (getCell lr "Data Source ID") (getCell dr "Data Source ID") = false) →
        v = Value.nan) ∧
      (v ≠ Value.nan →
        ∃ dr, dr ∈ dsRows ∧ (getCell dr "Caption").getD Value.nan = v) := by
  obtain ⟨lr, hlr, v, hv, hnomatch, hmatch⟩ := mergeCaption_mem leftRows dsRows r hr
  exact ⟨lr, hlr, v, hv, hnomatch,
    fun hne => (hmatch hne).imp (fun dr hdr => ⟨hdr.1, hdr.2.2⟩)⟩

/-- C3 witness: the amended statement evaluated on the one-row unmatched
field table. -/
theorem merged_caption_amended_witness :
    ∃ lr, lr ∈ [exFieldRow] ∧ ∃ v : Value,
      (exFieldRow ++ [("Data Source Caption", Value.nan)] : Row) =
        lr ++ [("Data Source Caption", v)] ∧
      ((∀ dr ∈ exDsTable,
          keyMatch (getCell lr "Data Source ID") (getCell dr "Data Source ID") = false) →
        v = Value.nan) ∧
      (v ≠ Value.nan →
        ∃ dr, dr ∈ exDsTable ∧ (getCell dr "Caption").getD Value.nan = v) :=
  merged_caption_amended [exFieldRow] exDsTable
    (exFieldRow ++ [("Data Source Caption", Value.nan)]) (by decide)

/-- C5 counterexample: the caption-merge stage overwrites the parsed
calculated-fields table inside the report aggregate. -/
theorem report_overwritten_cex :
    (mergeStep exMergeReport).metadata.calculated_fields
      ≠ exMergeReport.metadata.calculated_fields
    ∧ mergeStep exMergeReport ≠ exMergeReport := by
  constructor <;> decide

/-- C5 (amended): apart from the one-time caption merge — which replaces the
calculated-fields and original-fields tables by versions whose rows are the
parsed rows extended with a `'Data Source Caption'` cell — no table of the
report aggregate is overwritten: worksheets, data sources and the version
attributes are preserved exactly. -/
theorem mergeStep_frame (r : Report) :
    (mergeStep r).metadata.worksheets = r.metadata.worksheets
    ∧ (mergeStep r).data.data_sources = r.data.data_sources
    ∧ (mergeStep r).metadata.version = r.metadata.version
    ∧ (mergeStep r).metadata.source_platform = r.metadata.source_platform
    ∧ (mergeStep r).metadata.source_build = r.metadata.source_build
    ∧ (∀ row ∈ (mergeStep r).metadata.calculated_fields,
        row ∈ r.metadata.calculated_fields ∨
        ∃ lr, lr ∈ r.metadata.calculated_fields ∧
          ∃ v : Value, row = lr ++ [("Data Source Caption", v)])
    ∧ (∀ row ∈ (mergeStep r).metadata.original_fields,
        row ∈ r.metadata.original_fields ∨
        ∃ lr, lr ∈ r.metadata.original_fields ∧
          ∃ v : Value, row = lr ++ [("Data Source Caption", v)]) := by
  unfold mergeStep
  by_cases hds : r.data.data_sources.isEmpty = true
  · simp [hds]
    exact ⟨fun row h => Or.inl h, fun row h => Or.inl h⟩
  · simp only [hds, if_false]
    refine ⟨rfl, rfl, rfl, rfl, rfl, ?_, ?_⟩
    · intro row hrow
      by_cases hc : (!r.metadata.calculated_fields.isEmpty &&
          hasCol r.metadata.calculated_fields "Data Source ID") = true
      · rw [if_pos hc] at hrow
        obtain ⟨lr, hlr, v, hv, -, -⟩ := mergeCaption_mem _ _ _ hrow
        exact Or.inr ⟨lr, hlr, v, hv⟩
      · rw [if_neg hc] at hrow
        exact Or.inl hrow
    · intro row hrow
      by_cases hc : (!r.metadata.original_fields.isEmpty &&
          hasCol r.metadata.original_fields "Data Source ID") = true
      · rw [if_pos hc] at hrow
        obtain ⟨lr, hlr, v, hv, -, -⟩ := mergeCaption_mem _ _ _ hrow
        exact Or.inr ⟨lr, hlr, v, hv⟩
      · rw [if_neg hc] at hrow
        exact Or.inl hrow

/-- C5 witness: on the concrete report, the data-sources table is preserved
and the merged calculated-fields row is a parsed row plus a caption cell. -/
theorem mergeStep_frame_witness :
    (mergeStep exMergeReport).data.data_sources = exMergeReport.data.data_sources
    ∧ ((exFieldRow ++ [("Data Source Caption", Value.nan)] : Row) ∈
          exMergeReport.metadata.calculated_fields
       ∨ ∃ lr, lr ∈ exMergeReport.metadata.calculated_fields ∧
           ∃ v : Value, (exFieldRow ++ [("Data Source Caption", Value.nan)] : Row) =
             lr ++ [("Data Source Caption", v)]) :=
  ⟨(mergeStep_frame exMergeReport).2.1,
   (mergeStep_frame exMergeReport).2.2.2.2.2.1 _ (by decide)⟩

/-- C4 counterexample: a field whose formula attribute is present but
whitespace-only is classified Original while a present non-blank formula
gives Calculated, so classification is not independent of formula content
among fields with a present formula attribute. -/
theorem classify_presence_cex :
    (some " " : Option String).isSome = (some "[Sales]" : Option String).isSome
    ∧ classifyField (some " ") = FieldKind.original
    ∧ classifyField (some "[Sales]") = FieldKind.calculated := by
  refine ⟨rfl, by decide, by decide⟩

/-- C4 (amended): classification depends only on the presence of non-blank
formula content: a field is Calculated iff its formula attribute is present
and not empty or whitespace-only, and any two fields agreeing on that have
the same classification, independent of the rest of the content. -/
theorem classify_amended (f g : Option String) :
    (classifyField f =
      if hasRealFormula f then FieldKind.calculated else FieldKind.original)
    ∧ (hasRealFormula f = hasRealFormula g → classifyField f = classifyField g) := by
  have key : ∀ x : Option String, classifyField x =
      if hasRealFormula x then FieldKind.calculated else FieldKind.original := by
    intro x
    cases x with
    | none => rfl
    | some s => cases hb : isBlankStr s <;> simp [classifyField, hasRealFormula, hb]
  exact ⟨key f, fun h => by rw [key f, key g, h]⟩

/-- C4 witness: a whitespace-only formula and an absent formula classify the
same way. -/
theorem classify_amended_witness :
    classifyField (some " ") = classifyField none :=
  (classify_amended (some " ") none).2 (by decide)

/-- C6 counterexample: after a successful run, the saved copy of the
uploaded workbook package remains on disk. -/
theorem cleanup_cex :
    "temp_uploaded.twbx" ∈ remainingFiles (mainFsTrace exPipeOk)
    ∧ remainingFiles (mainFsTrace exPipeOk) ≠ [] := by
  constructor <;> decide

/-- C6 (amended): `main` performs no cleanup on any exit path: its
filesystem trace contains no delete operation, so the log file — and, when
the save succeeded, the saved workbook copy `temp_uploaded.twbx` — remain on
disk after the pipeline completes or fails. -/
theorem no_cleanup (p : PipeIn) :
    (∀ f, FsOp.delete f ∉ mainFsTrace p)
    ∧ (p.saveOk = true → "temp_uploaded.twbx" ∈ remainingFiles (mainFsTrace p))
    ∧ "logs/app.log" ∈ remainingFiles (mainFsTrace p) := by
  cases hs : p.saveOk <;> simp [mainFsTrace, remainingFiles, hs]

/-- C6 witness: the saved workbook copy is never deleted and remains on disk
after the successful run. -/
theorem no_cleanup_witness :
    FsOp.delete "temp_uploaded.twbx" ∉ mainFsTrace exPipeOk
    ∧ "temp_uploaded.twbx" ∈ remainingFiles (mainFsTrace exPipeOk) :=
  ⟨(no_cleanup exPipeOk).1 "temp_uploaded.twbx", (no_cleanup exPipeOk).2.1 rfl⟩

/-- C2: a failure of decompression, content extraction or parsing aborts all
report rendering for the workbook — an error message is shown and no section
header is emitted — and every table section that is selected but empty emits
its explicit empty-state message instead of a blank rendering. -/
theorem pipeline_error_handling (p : PipeIn) (selected : List String)
    (report : Report) :
    ((p.decompressOk = false ∨ p.twbContentNonEmpty = false ∨ p.parseOk = false) →
       (∃ s, Ev.errorMsg s ∈ runPipeline p selected)
       ∧ (∀ s, Ev.header s ∉ runPipeline p selected))
    ∧ ("Calculated Fields" ∈ selected → report.metadata.calculated_fields = [] →
        Ev.emptyMsg "No calculated fields found." ∈ renderSections selected report)
    ∧ ("Original Fields" ∈ selected → report.metadata.original_fields = [] →
        Ev.emptyMsg "No original fields found." ∈ renderSections selected report)
    ∧ ("Worksheets" ∈ selected → report.metadata.worksheets = [] →
        Ev.emptyMsg "No worksheets found." ∈ renderSections selected report)
    ∧ ("Data Sources" ∈ selected → report.data.data_sources = [] →
        Ev.emptyMsg "No data sources found." ∈ renderSections selected report)
    ∧ ("Dependency DAG" ∈ selected → report.metadata.calculated_fields = [] →
        Ev.emptyMsg "Insufficient data to generate Dependency DAG." ∈
          renderSections selected report) := by
  refine ⟨fun habort => ?_, fun hsel hemp => ?_, fun hsel hemp => ?_,
    fun hsel hemp => ?_, fun hsel hemp => ?_, fun hsel hemp => ?_⟩
  · cases hs : p.saveOk with
    | false =>
      exact ⟨⟨"Failed to save the uploaded file.", by simp [runPipeline, hs]⟩,
        fun s => by simp [runPipeline, hs]⟩
    | true =>
      cases hd : p.decompressOk with
      | false =>
        exact ⟨⟨"Failed to decompress the .twbx file.", by simp [runPipeline, hs, hd]⟩,
          fun s => by simp [runPipeline, hs, hd]⟩
      | true =>
        cases ht : p.twbContentNonEmpty with
        | false =>
          exact ⟨⟨"Failed to extract .twb content from the uploaded .twbx file.",
            by simp [runPipeline, hs, hd, ht]⟩, fun s => by simp [runPipeline, hs, hd, ht]⟩
        | true =>
          cases hp : p.parseOk with
          | false =>
            exact ⟨⟨"Failed to parse the .twb content.", by simp [runPipeline, hs, hd, ht, hp]⟩,
              fun s => by simp [runPipeline, hs, hd, ht, hp]⟩
          | true => rcases habort with h | h | h <;> simp_all
  · refine List.mem_flatMap.mpr ⟨"Calculated Fields", by decide, ?_⟩
    rw [if_pos hsel]
    simp [renderSection, hemp]
  · refine List.mem_flatMap.mpr ⟨"Original Fields", by decide, ?_⟩
    rw [if_pos hsel]
    simp [renderSection, hemp]
  · refine List.mem_flatMap.mpr ⟨"Worksheets", by decide, ?_⟩
    rw [if_pos hsel]
    simp [renderSection, hemp]
  · refine List.mem_flatMap.mpr ⟨"Data Sources", by decide, ?_⟩
    rw [if_pos hsel]
    simp [renderSection, hemp]
  · refine List.mem_flatMap.mpr ⟨"Dependency DAG", by decide, ?_⟩
    rw [if_pos hsel]
    simp [renderSection, hemp]

/-- C2 witness: a run whose decompression fails shows an error and renders
no section header, and an all-empty report emits the calculated-fields
empty-state message. -/
theorem pipeline_error_handling_witness :
    (∃ s, Ev.errorMsg s ∈ runPipeline exPipeFail reportSections)
    ∧ (∀ s, Ev.header s ∉ runPipeline exPipeFail reportSections)
    ∧ Ev.emptyMsg "No calculated fields found." ∈
        renderSections reportSections exEmptyReport :=
  ⟨((pipeline_error_handling exPipeFail reportSections exEmptyReport).1 (Or.inl rfl)).1,
   ((pipeline_error_handling exPipeFail reportSections exEmptyReport).1 (Or.inl rfl)).2,
   (pipeline_error_handling exPipeFail reportSections exEmptyReport).2.1 (by decide) rfl⟩

/-- C9: the in-app Dependency DAG section renders a graph iff both the
calculated-fields and original-fields tables are non-empty, showing the
insufficient-data message otherwise, whereas the exported report embeds the
graph whenever the section is selected and the calculated-fields table alone
is non-empty — in particular they diverge when calculated fields exist but
original fields are empty. -/
theorem dag_preconditions (r : Report) (selected : List String) :
    (Ev.graph ∈ renderSection r "Dependency DAG" ↔
       r.metadata.calculated_fields ≠ [] ∧ r.metadata.original_fields ≠ [])
    ∧ (Ev.emptyMsg "Insufficient data to generate Dependency DAG." ∈
         renderSection r "Dependency DAG" ↔
       ¬(r.metadata.calculated_fields ≠ [] ∧ r.metadata.original_fields ≠ []))
    ∧ (Ev.graph ∈ exportReportEvents selected r ↔
       "Dependency DAG" ∈ selected ∧ r.metadata.calculated_fields ≠ [])
    ∧ (r.metadata.calculated_fields ≠ [] → r.metadata.original_fields = [] →
       "Dependency DAG" ∈ selected →
       Ev.graph ∈ exportReportEvents selected r
       ∧ Ev.graph ∉ renderSection r "Dependency DAG") := by
  by_cases hcf : r.metadata.calculated_fields = [] <;>
    by_cases hof : r.metadata.original_fields = [] <;>
      by_cases hsel : "Dependency DAG" ∈ selected <;>
        simp [renderSection, exportReportEvents, hcf, hof, hsel,
          List.isEmpty_iff]

/-- C9 witness: with one calculated field, no original fields, and the
section selected, the export embeds the graph while the in-app section does
not render one. -/
theorem dag_preconditions_witness :
    Ev.graph ∈ exportReportEvents reportSections exMergeReport
    ∧ Ev.graph ∉ renderSection exMergeReport "Dependency DAG" :=
  (dag_preconditions exMergeReport reportSections).2.2.2 (by decide) rfl (by decide)

/-- C1: the report aggregate exposes the two namespaces with their tables
under the stable column names — both field tables and the data-sources table
carry `'Data Source ID'`, the data-sources table carries `'Caption'`, the
worksheets table carries `'Worksheet Name'` — and the version attributes are
exposed under `metadata` as the version info consumed by the presentation
layer. -/
theorem report_shape (doc : ParsedDoc) :
    (get_report doc).metadata.version = doc.version
    ∧ hasCol (get_report doc).metadata.calculated_fields "Data Source ID" = true
    ∧ hasCol (get_report doc).metadata.original_fields "Data Source ID" = true
    ∧ hasCol (get_report doc).data.data_sources "Data Source ID" = true
    ∧ hasCol (get_report doc).data.data_sources "Caption" = true
    ∧ hasCol (get_report doc).metadata.worksheets "Worksheet Name" = true
    ∧ versionInfo (get_report doc).metadata =
        (doc.version.getD "Unknown", doc.source_platform.getD "Unknown",
         doc.source_build.getD "Unknown") := by
  refine ⟨rfl, ?_, ?_, ?_, ?_, ?_, rfl⟩ <;>
    simp [get_report, hasCol, fieldRow, dsRow, wsRow, List.all_map,
      List.all_eq_true, Function.comp]
